import Mathlib

/-!
Verification of the state-broadcast daemons of the `bar` repository.

Each definition below is a shallow embedding of a function from the
repository sources (`combined_service.py`, `time_service.py`,
`window_service.py`).  Python strings are modelled as `List Char`,
Python integers as `Nat`/`Int`, fallible reads as `Option`, and the
float expression `int((a / b) * c)` on non-negative integers is
modelled by exact truncated division `a * c / b` (for the values read
from sysfs both operands are non-negative, where a sign can occur we
use `Int` with truncation towards zero).
-/

namespace Bar

/-- Python `str.isspace` characters relevant to `str.strip()`:
space, tab, newline, carriage return, vertical tab, form feed. -/
def pyIsSpace (c : Char) : Bool :=
  c == ' ' || c == '\t' || c == '\n' || c == '\r' || c == '\x0b' || c == '\x0c'

/-- Python `str.strip()`: drop leading and trailing whitespace. -/
def pyStrip (s : List Char) : List Char :=
  ((s.dropWhile pyIsSpace).reverse.dropWhile pyIsSpace).reverse

/-- Python `str.lower()` on the ASCII range (all status strings are ASCII). -/
def pyLower (s : List Char) : List Char :=
  s.map Char.toLower

/-- Python substring containment `needle in hay`. -/
def pyIn (needle hay : List Char) : Bool :=
  match hay with
  | [] => needle.isEmpty
  | _ :: t => needle.isPrefixOf hay || pyIn needle t

namespace Combined

/-- `charging_states` from `CombinedService._parse_battery_status`. -/
def charging_states : List (List Char) := ["charging".toList]

/-- `discharging_states` from `CombinedService._parse_battery_status`. -/
def discharging_states : List (List Char) := ["discharging".toList, "not charging".toList]

/-- `CombinedService._parse_battery_status`: strip and lowercase the raw
status, scan the charging vocabulary and the discharging vocabulary for a
substring hit (Python `state in status_clean`), and report charging only
when a charging phrase is present and no discharging phrase is. -/
def parse_battery_status (status_str : List Char) : Bool :=
  let status_clean := pyLower (pyStrip status_str)
  let is_charging := charging_states.any (fun st => pyIn st status_clean)
  let is_discharging := discharging_states.any (fun st => pyIn st status_clean)
  is_charging && !is_discharging

/-- C3: charging classification is true iff the cleaned (stripped,
lowercased) status contains a charging-vocabulary phrase and no
discharging-vocabulary phrase; the four concrete classifications of the
claim hold, and any status whose cleaned form contains both `charging`
and `discharging` resolves to not-charging. -/
theorem charging_classification :
    (∀ s : List Char,
      parse_battery_status s = true ↔
        (Bar.pyIn "charging".toList (Bar.pyLower (Bar.pyStrip s)) = true ∧
          ¬ (Bar.pyIn "discharging".toList (Bar.pyLower (Bar.pyStrip s)) = true ∨
             Bar.pyIn "not charging".toList (Bar.pyLower (Bar.pyStrip s)) = true)))
    ∧ parse_battery_status "Not charging".toList = false
    ∧ parse_battery_status "Charging".toList = true
    ∧ parse_battery_status "Discharging".toList = false
    ∧ parse_battery_status "contrived charging then discharging status".toList = false
    ∧ (∀ s : List Char,
        Bar.pyIn "charging".toList (Bar.pyLower (Bar.pyStrip s)) = true →
        Bar.pyIn "discharging".toList (Bar.pyLower (Bar.pyStrip s)) = true →
        parse_battery_status s = false) := by
  refine ⟨?_, by decide, by decide, by decide, by decide, ?_⟩
  · intro s
    simp [parse_battery_status, charging_states, discharging_states, not_or]
  · intro s h1 h2
    have h2' : discharging_states.any (fun st => pyIn st (Bar.pyLower (Bar.pyStrip s))) = true := by
      simp only [discharging_states, List.any_cons, List.any_nil, Bool.or_eq_true]
      exact Or.inl h2
    simp [parse_battery_status, h2']

/-- Closed witness for `charging_classification`, discharging its
hypothesis-bearing final conjunct at a concrete status string. -/
theorem charging_classification_witness :
    parse_battery_status "Discharging".toList = false :=
  charging_classification.2.2.2.2.2 "Discharging".toList (by decide) (by decide)

/-- The map built by `_find_and_debug_battery_files`, restricted to the
files `_calculate_time_from_files` consults.  `some n` models a file that
is present and reads as the non-negative integer `n`; `none` models a
file that is absent or whose read raises (both cases make the source
skip to the next method, so they coincide). -/
structure BatteryFiles where
  time_to_empty : Option Nat
  time_to_full : Option Nat
  power_now : Option Nat
  energy_now : Option Nat
  energy_full : Option Nat
  current_now : Option Nat
  charge_now : Option Nat
  charge_full : Option Nat
deriving DecidableEq

/-- Method 1 of `_calculate_time_from_files`: the direct kernel time file
(selected by charging state and by `discharging in status_str`), used only
when its value is positive; otherwise fall through. -/
def method1_direct_time (files : BatteryFiles) (is_charging : Bool) (status_str : List Char) : Option Nat :=
  let key_file :=
    if is_charging then files.time_to_full
    else if Bar.pyIn "discharging".toList status_str then files.time_to_empty
    else none
  match key_file with
  | some t => if t > 0 then some t else none
  | none => none

/-- Method 2 of `_calculate_time_from_files` (`power_now` + energy files).
`some r` models an explicit `return r` in the source (including
`return None` when the computed time is not positive); `none` models
falling through to method 3. -/
def method2_power_energy (files : BatteryFiles) (is_charging : Bool) : Option (Option Nat) :=
  match files.power_now, files.energy_now with
  | some power_now, some energy_now =>
    if power_now > 0 then
      if is_charging then
        match files.energy_full with
        | some energy_full =>
          let t : Int := Int.tdiv (((energy_full : Int) - (energy_now : Int)) * 3600) (power_now : Int)
          some (if t > 0 then some t.toNat else none)
        | none => none
      else
        let t : Nat := energy_now * 3600 / power_now
        some (if t > 0 then some t else none)
    else none
  | _, _ => none

/-- Method 3 of `_calculate_time_from_files` (`current_now` + charge
files), with the same return/fall-through convention as method 2. -/
def method3_current_charge (files : BatteryFiles) (is_charging : Bool) : Option (Option Nat) :=
  match files.current_now, files.charge_now with
  | some current_now, some charge_now =>
    if current_now > 0 then
      if is_charging then
        match files.charge_full with
        | some charge_full =>
          let t : Int := Int.tdiv (((charge_full : Int) - (charge_now : Int)) * 3600) (current_now : Int)
          some (if t > 0 then some t.toNat else none)
        | none => none
      else
        let t : Nat := charge_now * 3600 / current_now
        some (if t > 0 then some t else none)
    else none
  | _, _ => none

/-- `CombinedService._calculate_time_from_files`: try the three methods in
order, honouring early returns. -/
def calculate_time_from_files (files : BatteryFiles) (is_charging : Bool) (status_str : List Char) : Option Nat :=
  match method1_direct_time files is_charging status_str with
  | some t => some t
  | none =>
    match method2_power_energy files is_charging with
    | some r => r
    | none =>
      match method3_current_charge files is_charging with
      | some r => r
      | none => none

/-- C4 counterexample: with `time_to_empty` absent, `power_now = 1 > 0`
and `energy_now = 0`, the code returns `none`, not the claimed
`floor(energy_now / power_now * 3600) = 0`; and with `power_now = 0` but
current/charge files present, the code returns a method-3 value, not the
claimed `null`. -/
theorem battery_time_fallback_cex :
    calculate_time_from_files ⟨none, none, some 1, some 0, none, none, none, none⟩ false
        "discharging".toList ≠ some (0 * 3600 / 1)
    ∧ calculate_time_from_files ⟨none, none, some 0, some 5, none, some 1000, some 1000, none⟩ false
        "discharging".toList ≠ none := by
  decide

/-- C4 amended: in the discharging case with `time_to_empty` absent and
`power_now`, `energy_now` readable, if `power_now > 0` the result is
`floor(energy_now * 3600 / power_now)` when that value is positive and
`null` when it is zero; if `power_now = 0` no division happens and the
code falls through to the current/charge method, yielding `null` whenever
one of those files is absent. -/
theorem battery_time_fallback_amended (files : BatteryFiles) (p e : Nat) (status_str : List Char)
    (hd : Bar.pyIn "discharging".toList status_str = true)
    (h1 : files.time_to_empty = none)
    (h2 : files.power_now = some p) (h3 : files.energy_now = some e) :
    (p > 0 →
      calculate_time_from_files files false status_str =
        (if e * 3600 / p > 0 then some (e * 3600 / p) else none))
    ∧ (p = 0 → (files.current_now = none ∨ files.charge_now = none) →
        calculate_time_from_files files false status_str = none) := by
  constructor
  · intro hp
    simp [calculate_time_from_files, method1_direct_time, method2_power_energy, hd, h1, h2, h3, hp]
  · intro hp hmiss
    subst hp
    rcases hmiss with hm | hm
    · simp [calculate_time_from_files, method1_direct_time, method2_power_energy,
        method3_current_charge, hd, h1, h2, h3, hm]
    · cases hcn : files.current_now with
      | none =>
        simp [calculate_time_from_files, method1_direct_time, method2_power_energy,
          method3_current_charge, hd, h1, h2, h3, hcn]
      | some c =>
        simp [calculate_time_from_files, method1_direct_time, method2_power_energy,
          method3_current_charge, hd, h1, h2, h3, hm, hcn]

/-- Closed witness for `battery_time_fallback_amended` at a concrete
battery-file layout. -/
theorem battery_time_fallback_amended_witness :
    calculate_time_from_files ⟨none, none, some 2, some 7, none, none, none, none⟩ false
        "discharging".toList = (if 7 * 3600 / 2 > 0 then some (7 * 3600 / 2) else none) :=
  (battery_time_fallback_amended ⟨none, none, some 2, some 7, none, none, none, none⟩ 2 7
    "discharging".toList (by decide) rfl rfl rfl).1 (by decide)

/-- Outcome of opening and parsing one backlight pseudo-file: a
successful numeric read, an `IOError` (absent or unreadable file), or a
`ValueError` (non-numeric content). -/
inductive FileRead
  | ok (n : Nat)
  | io_error
  | parse_error
deriving DecidableEq

/-- `CombinedService.get_backlight_percentage_internal`: `none` when the
startup probe found no backlight directory (`paths_found = false`), when
either read raises `IOError`, or when either content fails `int(...)`;
otherwise `floor(current / max * 100)` for positive `max` and `0` for
`max = 0`.  Total by construction: every failure is absorbed into
`none`, mirroring the `except (IOError, ValueError)` handler. -/
def get_backlight_percentage_internal (paths_found : Bool)
    (brightness max_brightness : FileRead) : Option Nat :=
  if paths_found then
    match brightness with
    | FileRead.ok current =>
      match max_brightness with
      | FileRead.ok max_val => if max_val > 0 then some (current * 100 / max_val) else some 0
      | _ => none
    | _ => none
  else none

/-- C10: the backlight percentage computation is total: with both files
readable it is `floor(current * 100 / max)` for `max > 0` and `0` for
`max = 0` (not `none`, and no division error); any missing path,
unreadable file or non-numeric content yields `none`. -/
theorem backlight_percentage_total :
    (∀ c mv : Nat, 0 < mv →
      get_backlight_percentage_internal true (FileRead.ok c) (FileRead.ok mv) =
        some (c * 100 / mv))
    ∧ (∀ c : Nat,
        get_backlight_percentage_internal true (FileRead.ok c) (FileRead.ok 0) = some 0)
    ∧ (∀ b m : FileRead, get_backlight_percentage_internal false b m = none)
    ∧ (∀ m : FileRead, get_backlight_percentage_internal true FileRead.io_error m = none)
    ∧ (∀ m : FileRead, get_backlight_percentage_internal true FileRead.parse_error m = none)
    ∧ (∀ c : Nat,
        get_backlight_percentage_internal true (FileRead.ok c) FileRead.io_error = none)
    ∧ (∀ c : Nat,
        get_backlight_percentage_internal true (FileRead.ok c) FileRead.parse_error = none) := by
  refine ⟨fun c mv h => by simp [get_backlight_percentage_internal, h], fun c => rfl,
    fun b m => ?_, fun m => rfl, fun m => rfl, fun c => rfl, fun c => rfl⟩
  rfl

/-- Closed witness for `backlight_percentage_total` at a concrete
brightness pair. -/
theorem backlight_percentage_total_witness :
    get_backlight_percentage_internal true (FileRead.ok 50) (FileRead.ok 200) =
      some (50 * 100 / 200) :=
  backlight_percentage_total.1 50 200 (by decide)

/-- The snapshot `CombinedService.current_data`.  `none` in an `Option`
field is the JSON `null` placeholder of the source dict. -/
structure CombinedData where
  battery_percentage : Option Nat
  is_charging : Bool
  battery_time_remaining : Option Nat
  backlight_percentage : Option Nat
  volume_percentage : Option Int
  speaker_muted : Option Bool
  mic_muted : Option Bool
deriving DecidableEq

/-- A (possibly partial) update of the snapshot: `none` means the field
is untouched by this adapter pass, `some v` means the adapter computed
`v` for it.  `update_file_data_and_notify` supplies the first four
fields, `_on_audio_state_changed` the last three (an absent speaker or
microphone re-supplies the stored value, which is the same as leaving
the field unspecified). -/
structure DataUpdate where
  battery_percentage : Option (Option Nat)
  is_charging : Option Bool
  battery_time_remaining : Option (Option Nat)
  backlight_percentage : Option (Option Nat)
  volume_percentage : Option (Option Int)
  speaker_muted : Option (Option Bool)
  mic_muted : Option (Option Bool)

/-- The per-field compare-and-set idiom
`if current_data[k] != new: current_data[k], data_changed = new, True`. -/
def applyField {β : Type} [DecidableEq β] (old : β) : Option β → β × Bool
  | none => (old, false)
  | some v => if old ≠ v then (v, true) else (old, false)

/-- The merge step shared by `update_file_data_and_notify` and
`_on_audio_state_changed`: each specified field is compared and swapped,
and the returned flag is the `data_changed` accumulator that triggers
`notify_clients`. -/
def applyUpdate (s : CombinedData) (u : DataUpdate) : CombinedData × Bool :=
  let f1 := applyField s.battery_percentage u.battery_percentage
  let f2 := applyField s.is_charging u.is_charging
  let f3 := applyField s.battery_time_remaining u.battery_time_remaining
  let f4 := applyField s.backlight_percentage u.backlight_percentage
  let f5 := applyField s.volume_percentage u.volume_percentage
  let f6 := applyField s.speaker_muted u.speaker_muted
  let f7 := applyField s.mic_muted u.mic_muted
  (⟨f1.1, f2.1, f3.1, f4.1, f5.1, f6.1, f7.1⟩,
    f1.2 || f2.2 || f3.2 || f4.2 || f5.2 || f6.2 || f7.2)

theorem applyField_fst {β : Type} [DecidableEq β] (old : β) (o : Option β) :
    (applyField old o).1 = o.getD old := by
  cases o with
  | none => rfl
  | some v =>
    by_cases h : old = v
    · simp [applyField, h]
    · simp [applyField, h]

theorem applyField_snd {β : Type} [DecidableEq β] (old : β) (o : Option β) :
    ((applyField old o).2 = true ↔ (applyField old o).1 ≠ old) := by
  cases o with
  | none => simp [applyField]
  | some v =>
    by_cases h : old = v
    · simp [applyField, h]
    · simp [applyField, h, Ne.symm h]

theorem applyUpdate_changed_iff (s : CombinedData) (u : DataUpdate) :
    ((applyUpdate s u).2 = true ↔ (applyUpdate s u).1 ≠ s) := by
  obtain ⟨b, c, t, l, v, sm, m⟩ := s
  simp only [applyUpdate, Bool.or_eq_true, applyField_snd, ne_eq, CombinedData.mk.injEq,
    not_and_or]
  tauto

/-- A full snapshot presented as an update with every field specified,
as the file-data path does with all four of its fields and the audio
path with all three of its fields. -/
def fullUpdate (d : CombinedData) : DataUpdate :=
  ⟨some d.battery_percentage, some d.is_charging, some d.battery_time_remaining,
    some d.backlight_percentage, some d.volume_percentage, some d.speaker_muted,
    some d.mic_muted⟩

/-- Fold a sequence of full adapter inputs through the store, counting
how many of them triggered a broadcast. -/
def applyAll (init : CombinedData) : List CombinedData → CombinedData × Nat
  | [] => (init, 0)
  | x :: xs =>
    let step := applyUpdate init (fullUpdate x)
    let rest := applyAll step.1 xs
    (rest.1, (if step.2 then 1 else 0) + rest.2)

theorem applyUpdate_fullUpdate_fst (s x : CombinedData) :
    (applyUpdate s (fullUpdate x)).1 = x := by
  simp [applyUpdate, fullUpdate, applyField_fst]

theorem applyUpdate_self_snd (s : CombinedData) :
    (applyUpdate s (fullUpdate s)).2 = false := by
  simp [applyUpdate, fullUpdate, applyField]

/-- C1: merge semantics of the combined-metrics state store.  Unspecified
fields keep their prior value and specified fields replace it
(`getD`-shape, seven conjuncts); the broadcast flag is set iff the merged
snapshot differs from the stored one; over any sequence of full adapter
inputs the stored snapshot ends at the most recent differing input (the
last element, since an equal input leaves the store unchanged at that
same value), and a sequence of inputs identical to the stored snapshot
triggers zero broadcasts. -/
theorem state_store_merge :
    (∀ (s : CombinedData) (u : DataUpdate),
      (applyUpdate s u).1.battery_percentage = u.battery_percentage.getD s.battery_percentage
      ∧ (applyUpdate s u).1.is_charging = u.is_charging.getD s.is_charging
      ∧ (applyUpdate s u).1.battery_time_remaining =
          u.battery_time_remaining.getD s.battery_time_remaining
      ∧ (applyUpdate s u).1.backlight_percentage =
          u.backlight_percentage.getD s.backlight_percentage
      ∧ (applyUpdate s u).1.volume_percentage = u.volume_percentage.getD s.volume_percentage
      ∧ (applyUpdate s u).1.speaker_muted = u.speaker_muted.getD s.speaker_muted
      ∧ (applyUpdate s u).1.mic_muted = u.mic_muted.getD s.mic_muted)
    ∧ (∀ (s : CombinedData) (u : DataUpdate),
        ((applyUpdate s u).2 = true ↔ (applyUpdate s u).1 ≠ s))
    ∧ (∀ (init : CombinedData) (inputs : List CombinedData),
        (applyAll init inputs).1 = inputs.getLastD init)
    ∧ (∀ (init : CombinedData) (inputs : List CombinedData),
        (∀ x ∈ inputs, x = init) → (applyAll init inputs).2 = 0) := by
  refine ⟨fun s u => ?_, applyUpdate_changed_iff, fun init inputs => ?_, fun init inputs => ?_⟩
  · simp [applyUpdate, applyField_fst]
  · induction inputs generalizing init with
    | nil => rfl
    | cons x xs ih =>
      have h1 : (applyAll init (x :: xs)).1 = (applyAll x xs).1 := by
        simp [applyAll, applyUpdate_fullUpdate_fst]
      rw [h1, ih, List.getLastD_cons]
  · induction inputs with
    | nil => intro _; rfl
    | cons x xs ih =>
      intro h
      have hx : x = init := h x (List.mem_cons_self x xs)
      subst hx
      simp only [applyAll, applyUpdate_self_snd, applyUpdate_fullUpdate_fst, if_neg, ite_false,
        Bool.false_eq_true, Nat.zero_add]
      exact ih fun y hy => h y (List.mem_cons_of_mem _ hy)

/-- Closed witness for `state_store_merge`: an input identical to the
stored snapshot produces zero broadcasts. -/
theorem state_store_merge_witness :
    (applyAll ⟨none, false, none, none, none, none, none⟩
      [⟨none, false, none, none, none, none, none⟩]).2 = 0 :=
  state_store_merge.2.2.2 ⟨none, false, none, none, none, none, none⟩
    [⟨none, false, none, none, none, none, none⟩] (fun x hx => by simpa using hx)

/-- The mutable daemon state consulted by
`update_file_data_and_notify`: the snapshot and `last_battery_update`
(seconds; the float `time.time()` is modelled in whole seconds). -/
structure ServiceState where
  current_data : CombinedData
  last_battery_update : Nat
deriving DecidableEq

/-- The external reads a single call can perform: the triple returned by
`get_battery_info_internal` and the value of
`get_backlight_percentage_internal`. -/
structure ReadEnv where
  battery_percent : Option Nat
  battery_charging : Bool
  battery_time : Option Nat
  backlight_percent : Option Nat

/-- `CombinedService.update_file_data_and_notify`: the backlight is read
every call; the battery triple is re-read only when forced or when at
least 30 seconds have passed since `last_battery_update`, otherwise the
stored values are re-supplied verbatim.  Returns the new state, whether
the battery files were re-read, and whether `notify_clients` ran. -/
def update_file_data_and_notify (st : ServiceState) (env : ReadEnv)
    (force_battery_update : Bool) (current_time : Nat) :
    ServiceState × Bool × Bool :=
  let backlight_percent := env.backlight_percent
  let should_update_battery :=
    force_battery_update || decide (30 ≤ current_time - st.last_battery_update)
  let battery_vals :=
    if should_update_battery then
      (env.battery_percent, env.battery_charging, env.battery_time)
    else
      (st.current_data.battery_percentage, st.current_data.is_charging,
        st.current_data.battery_time_remaining)
  let last2 := if should_update_battery then current_time else st.last_battery_update
  let res := applyUpdate st.current_data
    ⟨some battery_vals.1, some battery_vals.2.1, some battery_vals.2.2,
      some backlight_percent, none, none, none⟩
  (⟨res.1, last2⟩, should_update_battery, res.2)

/-- C8: a non-forced update within 30 seconds of the last battery refresh
performs no battery re-read and keeps the three stored battery fields
verbatim while the backlight field is recomputed; a forced update re-reads
regardless of the window; two consecutive non-forced updates inside the
window perform no battery re-read at all. -/
theorem battery_rate_limiting (st : ServiceState) (env env2 : ReadEnv) (t1 t2 : Nat) :
    ((update_file_data_and_notify st env true t1).2.1 = true)
    ∧ (t1 - st.last_battery_update < 30 →
        (update_file_data_and_notify st env false t1).2.1 = false
        ∧ (update_file_data_and_notify st env false t1).1.current_data.battery_percentage =
            st.current_data.battery_percentage
        ∧ (update_file_data_and_notify st env false t1).1.current_data.is_charging =
            st.current_data.is_charging
        ∧ (update_file_data_and_notify st env false t1).1.current_data.battery_time_remaining =
            st.current_data.battery_time_remaining
        ∧ (update_file_data_and_notify st env false t1).1.current_data.backlight_percentage =
            env.backlight_percent)
    ∧ (t1 - st.last_battery_update < 30 → t2 - st.last_battery_update < 30 →
        (update_file_data_and_notify st env false t1).2.1 = false
        ∧ (update_file_data_and_notify
            (update_file_data_and_notify st env false t1).1 env2 false t2).2.1 = false) := by
  have hflag : ∀ (st' : ServiceState) (env' : ReadEnv) (f : Bool) (t : Nat),
      (update_file_data_and_notify st' env' f t).2.1 =
        (f || decide (30 ≤ t - st'.last_battery_update)) := fun _ _ _ _ => rfl
  refine ⟨by rw [hflag]; simp, fun h1 => ?_, fun h1 h2 => ?_⟩
  · have hs : (false || decide (30 ≤ t1 - st.last_battery_update)) = false := by
      simp [Nat.not_le.mpr h1]
    refine ⟨by rw [hflag]; exact hs, ?_, ?_, ?_, ?_⟩ <;>
      simp [update_file_data_and_notify, hs, applyUpdate, applyField_fst]
  · have hs : (false || decide (30 ≤ t1 - st.last_battery_update)) = false := by
      simp [Nat.not_le.mpr h1]
    have hlast : (update_file_data_and_notify st env false t1).1.last_battery_update =
        st.last_battery_update := by
      simp [update_file_data_and_notify, hs]
    refine ⟨by rw [hflag]; exact hs, ?_⟩
    rw [hflag, hlast]
    simp [Nat.not_le.mpr h2]

/-- Closed witness for `battery_rate_limiting`: two backlight-only calls
at 10 s and 20 s after a refresh at time 0 re-read nothing. -/
theorem battery_rate_limiting_witness :
    (update_file_data_and_notify
      ((update_file_data_and_notify
          ⟨⟨none, false, none, none, none, none, none⟩, 0⟩
          ⟨none, false, none, some 40⟩ false 10).1)
      ⟨none, false, none, some 50⟩ false 20).2.1 = false :=
  (battery_rate_limiting ⟨⟨none, false, none, none, none, none, none⟩, 0⟩
    ⟨none, false, none, some 40⟩ ⟨none, false, none, some 50⟩ 10 20).2.2
    (by decide) (by decide) |>.2

/-- Result of one `notify_clients` pass over the registry: which clients
got the message, the registry afterwards, and which sockets were closed.
Clients are modelled by numeric ids; `fails c = true` models a send on
client `c` raising `socket.error`. -/
structure NotifyResult where
  delivered : List Nat
  remaining : List Nat
  closed : List Nat
deriving DecidableEq

/-- `CombinedService.notify_clients` (and the equivalent
`TimeService.notify_clients` / `WindowService.notify_clients`): iterate
over a copy of the registry sending to each client; collect the clients
whose send raised; then for each collected client remove it from the
registry if still present (`List.diff` is exactly this
check-membership-then-erase loop) and close its socket.  No exception
escapes: the function is total. -/
def notify_clients (clients : List Nat) (fails : Nat → Bool) : NotifyResult :=
  let delivered := clients.filter (fun c => !(fails c))
  let disconnected := clients.filter (fun c => fails c)
  { delivered := delivered
    remaining := clients.diff disconnected
    closed := disconnected }

/-- C7: during a broadcast a write failure on client `A` removes only `A`
from the registry and closes its socket; every other registered client
still receives the message, and a subsequent broadcast still reaches
them. -/
theorem broadcast_isolation (clients : List Nat) (fails : Nat → Bool) (A B : Nat)
    (hnd : clients.Nodup) (hA : A ∈ clients) (hB : B ∈ clients)
    (hfA : fails A = true) (hfB : fails B = false) :
    B ∈ (notify_clients clients fails).delivered
    ∧ A ∉ (notify_clients clients fails).delivered
    ∧ A ∉ (notify_clients clients fails).remaining
    ∧ B ∈ (notify_clients clients fails).remaining
    ∧ A ∈ (notify_clients clients fails).closed
    ∧ (∀ c ∈ clients, fails c = false → c ∈ (notify_clients clients fails).remaining)
    ∧ B ∈ (notify_clients (notify_clients clients fails).remaining (fun _ => false)).delivered := by
  have hBd : B ∈ clients.filter (fun c => !(fails c)) :=
    List.mem_filter.mpr ⟨hB, by simp [hfB]⟩
  have hAdis : A ∈ clients.filter (fun c => fails c) :=
    List.mem_filter.mpr ⟨hA, by simp [hfA]⟩
  have hkeep : ∀ c ∈ clients, fails c = false →
      c ∈ clients.diff (clients.filter (fun c => fails c)) := by
    intro c hc hfc
    refine List.mem_diff_of_mem hc ?_
    intro hmem
    have := (List.mem_filter.mp hmem).2
    simp [hfc] at this
  have hBr : B ∈ clients.diff (clients.filter (fun c => fails c)) := hkeep B hB hfB
  refine ⟨hBd, ?_, ?_, hBr, hAdis, hkeep, ?_⟩
  · intro hmem
    have := (List.mem_filter.mp hmem).2
    simp [hfA] at this
  · intro hmem
    have := (hnd.mem_diff_iff.mp hmem).2
    exact this hAdis
  · exact List.mem_filter.mpr ⟨hBr, by simp⟩

/-- Closed witness for `broadcast_isolation` on the registry `[0, 1]`
where sends to client 0 fail. -/
theorem broadcast_isolation_witness :
    1 ∈ (notify_clients [0, 1] (fun c => c == 0)).delivered :=
  (broadcast_isolation [0, 1] (fun c => c == 0) 0 1 (by decide) (by decide) (by decide)
    (by decide) (by decide)).1

end Combined

namespace WindowSvc

/-- One raw workspace object as decoded from the Hyprland IPC JSON; every
field may be missing (`ws.get` with a default in the source). -/
structure RawWorkspace where
  id : Option Int
  name : Option (List Char)
  windows : Option Int
deriving DecidableEq

/-- One entry of the list exposed to clients by
`WindowService.get_hyprland_all_workspaces_list`. -/
structure WorkspaceEntry where
  id : Int
  name : Option (List Char)
  windows : Int
deriving DecidableEq

/-- The sort order used by `filtered_workspaces.sort(key=lambda ws: ws["id"])`. -/
def wsLe (a b : WorkspaceEntry) : Prop := a.id ≤ b.id

instance : DecidableRel wsLe := fun a b => inferInstanceAs (Decidable (a.id ≤ b.id))

instance : IsTotal WorkspaceEntry wsLe := ⟨fun a b => Int.le_total a.id b.id⟩

instance : IsTrans WorkspaceEntry wsLe := ⟨fun _ _ _ h1 h2 => le_trans h1 h2⟩

/-- `WindowService.get_hyprland_all_workspaces_list`: `none` models a
failed or non-list IPC response (which yields `[]`, as does the falsy
empty list).  Entries keep only workspaces with `ws.get("id", 0) >= 0`
and are then sorted ascending by id; Python's stable sort is modelled by
insertion sort, which is also stable. -/
def get_hyprland_all_workspaces_list (data : Option (List RawWorkspace)) : List WorkspaceEntry :=
  match data with
  | some l =>
    let filtered_workspaces :=
      (l.filter (fun ws => 0 ≤ ws.id.getD 0)).map
        (fun ws => ⟨ws.id.getD 0, ws.name, ws.windows.getD 0⟩)
    filtered_workspaces.insertionSort wsLe
  | none => []

/-- C5: the exposed workspace list contains exactly the (converted)
entries with non-negative id, is sorted ascending by id, and on the
concrete input with ids `[-1, 3, 1, 2]` equals the entries with ids
`[1, 2, 3]`. -/
theorem workspace_ordering :
    (∀ l : List RawWorkspace,
      List.Perm (get_hyprland_all_workspaces_list (some l))
        ((l.filter (fun ws => 0 ≤ ws.id.getD 0)).map
          (fun ws => ⟨ws.id.getD 0, ws.name, ws.windows.getD 0⟩))
      ∧ ((get_hyprland_all_workspaces_list (some l)).map WorkspaceEntry.id).Sorted (· ≤ ·)
      ∧ (∀ e ∈ get_hyprland_all_workspaces_list (some l), 0 ≤ e.id))
    ∧ get_hyprland_all_workspaces_list
        (some [⟨some (-1), none, some 0⟩, ⟨some 3, none, some 0⟩,
               ⟨some 1, none, some 0⟩, ⟨some 2, none, some 0⟩]) =
      [⟨1, none, 0⟩, ⟨2, none, 0⟩, ⟨3, none, 0⟩] := by
  constructor
  · intro l
    refine ⟨List.perm_insertionSort wsLe _, ?_, ?_⟩
    · exact List.Pairwise.map WorkspaceEntry.id (fun a b h => h)
        (List.sorted_insertionSort wsLe _)
    · intro e he
      have he2 := (List.perm_insertionSort wsLe
        ((l.filter (fun ws => 0 ≤ ws.id.getD 0)).map
          (fun ws => ⟨ws.id.getD 0, ws.name, ws.windows.getD 0⟩))).mem_iff.mp he
      rcases List.mem_map.mp he2 with ⟨ws, hws, rfl⟩
      exact of_decide_eq_true (List.mem_filter.mp hws).2
  · decide

/-- Closed witness for `workspace_ordering`: every exposed entry of a
concrete workspace list has a non-negative id. -/
theorem workspace_ordering_witness :
    (0 : Int) ≤ (⟨2, none, 1⟩ : WorkspaceEntry).id :=
  (workspace_ordering.1 [⟨some 2, none, some 1⟩]).2.2 ⟨2, none, 1⟩ (by decide)

end WindowSvc

namespace TimeSvc

/-- The record produced by `TimeService.get_formatted_time`. -/
structure TimeInfo where
  time_str : List Char
  day_name : List Char
  date_str : List Char
  full_display : List Char
deriving DecidableEq

/-- One wake of the loop body of `TimeService.monitor_time`: given the
stored record and the newly sampled record, return the new stored record
and whether `notify_clients` runs.  The source compares only the
`time_str` fields of the two records. -/
def monitor_step (stored newInfo : TimeInfo) : TimeInfo × Bool :=
  if newInfo.time_str ≠ stored.time_str then (newInfo, true) else (stored, false)

/-- C6 counterexample: two records equal in `time_str` but different in
`day_name`, `date_str` and `full_display` trigger no broadcast, although
they differ under whole-record field-wise equality. -/
theorem clock_broadcast_cex :
    (monitor_step
      ⟨"12:00".toList, "Mon".toList, "1st Jan".toList, "12:00, Mon, 1st Jan".toList⟩
      ⟨"12:00".toList, "Tue".toList, "2nd Jan".toList, "12:00, Tue, 2nd Jan".toList⟩).2 = false
    ∧ (⟨"12:00".toList, "Tue".toList, "2nd Jan".toList, "12:00, Tue, 2nd Jan".toList⟩ : TimeInfo) ≠
      ⟨"12:00".toList, "Mon".toList, "1st Jan".toList, "12:00, Mon, 1st Jan".toList⟩ := by
  decide

/-- C6 amended: a broadcast occurs iff the `time_str` fields of the new
and stored records differ (not whole-record inequality); on a broadcast
the whole new record replaces the stored one, and a broadcast does imply
that the records differ. -/
theorem clock_broadcast_amended (stored newInfo : TimeInfo) :
    ((monitor_step stored newInfo).2 = true ↔ newInfo.time_str ≠ stored.time_str)
    ∧ (monitor_step stored newInfo).1 =
        (if newInfo.time_str ≠ stored.time_str then newInfo else stored)
    ∧ ((monitor_step stored newInfo).2 = true → newInfo ≠ stored) := by
  by_cases h : newInfo.time_str = stored.time_str
  · simp [monitor_step, h]
  · refine ⟨by simp [monitor_step, h], by simp [monitor_step, h], fun _ he => h (by rw [he])⟩

/-- Closed witness for `clock_broadcast_amended`: a sample whose minute
changed broadcasts, hence the records differ. -/
theorem clock_broadcast_amended_witness :
    (⟨"12:01".toList, "Mon".toList, "1st Jan".toList, "x".toList⟩ : TimeInfo) ≠
      ⟨"12:00".toList, "Mon".toList, "1st Jan".toList, "x".toList⟩ :=
  (clock_broadcast_amended
    ⟨"12:00".toList, "Mon".toList, "1st Jan".toList, "x".toList⟩
    ⟨"12:01".toList, "Mon".toList, "1st Jan".toList, "x".toList⟩).2.2 (by decide)

end TimeSvc

namespace Startup

/-- Externally visible startup actions of a daemon's `main`. -/
inductive StartupAction
  | probe_socket
  | unlink_socket
  | bind_socket
  | exit_process
deriving DecidableEq

/-- Startup decision of `combined_service.main` together with
`CombinedService.__init__`: try `flock(LOCK_EX | LOCK_NB)` on the lock
file; if it is already held, log a warning and `sys.exit(1)` at once —
the socket is never probed or touched.  Otherwise the service
constructor unlinks any existing socket path unconditionally (no
reachability check) and binds. -/
def combined_main_startup (lock_held socket_path_exists : Bool) : List StartupAction :=
  if lock_held then [StartupAction.exit_process]
  else
    (if socket_path_exists then [StartupAction.unlink_socket] else []) ++
      [StartupAction.bind_socket]

/-- Startup decision of `time_service.main` (identical in
`window_service.main`): no lock file; if the socket path exists, probe
it by connecting; a successful connect means a daemon is already
running, so exit; a failed connect means the path is stale, so unlink
it; then bind. -/
def time_main_startup (socket_path_exists socket_connectable : Bool) : List StartupAction :=
  if socket_path_exists then
    if socket_connectable then
      [StartupAction.probe_socket, StartupAction.exit_process]
    else
      [StartupAction.probe_socket, StartupAction.unlink_socket, StartupAction.bind_socket]
  else [StartupAction.bind_socket]

/-- C9 counterexample: the combined daemon never combines the lock with a
socket probe.  With the lock held it exits without probing (the claimed
probe-on-held-lock never happens), and with the lock free it unlinks an
existing socket path without any reachability check (so removal is not
restricted to unreachable sockets). -/
theorem single_instance_cex :
    combined_main_startup true true = [StartupAction.exit_process]
    ∧ StartupAction.probe_socket ∉ combined_main_startup true true
    ∧ StartupAction.unlink_socket ∈ combined_main_startup false true
    ∧ StartupAction.probe_socket ∉ combined_main_startup false true := by
  decide

/-- C9 amended: each daemon uses one mechanism, not both.  The combined
daemon relies on the advisory lock alone: a second instance finding the
lock held exits immediately without probing, unlinking or binding, so the
running instance's socket, clients and state are untouched; with the lock
free it unlinks any existing path and binds.  The time and window daemons
rely on the socket probe alone: a live, connectable socket makes the
second instance exit without unlinking or binding; the path is unlinked
only when it exists and the probe connection fails. -/
theorem single_instance_amended (lock_held sock_exists conn : Bool) :
    (lock_held = true → combined_main_startup lock_held sock_exists = [StartupAction.exit_process])
    ∧ (lock_held = false →
        StartupAction.bind_socket ∈ combined_main_startup lock_held sock_exists
        ∧ (sock_exists = true →
            StartupAction.unlink_socket ∈ combined_main_startup lock_held sock_exists))
    ∧ (sock_exists = true → conn = true →
        time_main_startup sock_exists conn =
          [StartupAction.probe_socket, StartupAction.exit_process])
    ∧ (StartupAction.unlink_socket ∈ time_main_startup sock_exists conn ↔
        (sock_exists = true ∧ conn = false))
    ∧ (StartupAction.bind_socket ∈ time_main_startup sock_exists conn ↔
        ¬ (sock_exists = true ∧ conn = true)) := by
  cases lock_held <;> cases sock_exists <;> cases conn <;> decide

/-- Closed witness for `single_instance_amended`: a second combined
instance with the lock held just exits. -/
theorem single_instance_amended_witness :
    combined_main_startup true true = [StartupAction.exit_process] :=
  (single_instance_amended true true true).1 rfl

end Startup

namespace Connect

/-- Progress of the accept/handler thread for one connecting client:
`idle` before `accept_clients` registers the socket, `registered` after
`self.clients.append(client_socket)` but before `handle_client` sends
the initial snapshot, `done` after the initial send. -/
inductive HandlerPC
  | idle
  | registered
  | done
deriving DecidableEq

/-- Progress of one state change in the broadcaster thread: `idle`
before the adapter mutates `current_data`, `changed` after the mutation
but before `notify_clients`, `done` after the broadcast. -/
inductive BcastPC
  | idle
  | changed
  | done
deriving DecidableEq

/-- Shared state of the daemon and one connecting client, parametric in
the snapshot type: the current snapshot, whether the client is in
`self.clients`, the ordered list of messages the client has received,
and the two thread program counters. -/
structure ConnState (α : Type) where
  data : α
  registered : Bool
  received : List α
  hpc : HandlerPC
  bpc : BcastPC
deriving DecidableEq

/-- Interleaved small-step semantics of `accept_clients` /
`handle_client` / `notify_clients` (the structure is shared by all three
daemons; line references are to `combined_service.py`).  `nd` is the
snapshot value the in-flight change writes.
* `register`: `accept_clients` appends the client to `self.clients`
  before spawning `handle_client`.
* `send_initial`: `handle_client` serializes `self.current_data` at send
  time — not at accept time — and sends it to the client.
* `set_data`: the adapter replaces `current_data` under the lock.
* `broadcast_send` / `broadcast_skip`: `notify_clients` copies the
  registry and sends the current snapshot to every registered client,
  which includes the new client as soon as `register` has happened. -/
inductive ConnStep (nd : α) : ConnState α → ConnState α → Prop
  | register (d : α) (r : List α) (b : BcastPC) :
      ConnStep nd ⟨d, false, r, HandlerPC.idle, b⟩ ⟨d, true, r, HandlerPC.registered, b⟩
  | send_initial (d : α) (r : List α) (b : BcastPC) :
      ConnStep nd ⟨d, true, r, HandlerPC.registered, b⟩
        ⟨d, true, r ++ [d], HandlerPC.done, b⟩
  | set_data (d : α) (reg : Bool) (r : List α) (h : HandlerPC) :
      ConnStep nd ⟨d, reg, r, h, BcastPC.idle⟩ ⟨nd, reg, r, h, BcastPC.changed⟩
  | broadcast_send (d : α) (r : List α) (h : HandlerPC) :
      ConnStep nd ⟨d, true, r, h, BcastPC.changed⟩ ⟨d, true, r ++ [d], h, BcastPC.done⟩
  | broadcast_skip (d : α) (r : List α) (h : HandlerPC) :
      ConnStep nd ⟨d, false, r, h, BcastPC.changed⟩ ⟨d, false, r, h, BcastPC.done⟩

/-- C2 (bug exhibit): a legal interleaving in which the client connects
while the snapshot is `0`, one change to `1` is in flight, and the first
message the client receives is the change broadcast `1` — not the
snapshot `0` current at connect time; the initial snapshot message
arrives second and also carries the later value.  The run is
register → set_data → broadcast_send → send_initial, each step an exact
transition of the source. -/
theorem connect_first_message_bug :
    Relation.ReflTransGen (ConnStep (α := Nat) 1)
      ⟨0, false, [], HandlerPC.idle, BcastPC.idle⟩
      ⟨1, true, [1, 1], HandlerPC.done, BcastPC.done⟩
    ∧ List.head? [1, 1] ≠ some 0 := by
  constructor
  · exact Relation.ReflTransGen.tail
      (Relation.ReflTransGen.tail
        (Relation.ReflTransGen.tail
          (Relation.ReflTransGen.single (ConnStep.register 0 [] BcastPC.idle))
          (ConnStep.set_data 0 true [] HandlerPC.registered))
        (ConnStep.broadcast_send 1 [] HandlerPC.registered))
      (ConnStep.send_initial 1 [1] BcastPC.done)
  · decide

end Connect

end Bar
